import Mathlib

/-!
Shallow embedding of the currency-exchange app (`src/app.py`).

Modelling choices:
* Python floats are modelled as exact rationals (`ℚ`); the spec declares the
  6-decimal formatting display-only, so results carry full-precision numbers.
* The network is a function `Net : Endpoint → String → Option Resp`: the app
  requests `{root}/{code}.json` at one of two roots, and `none` models any
  network error, timeout or JSON-parse failure (`_try_fetch` raising).
* A JSON response body is `Resp`: an optional `"date"` field plus named
  rate-table fields (the expected shape `{"date": ..., "<base>": {...}}`).
* The module-level mutable `_cache` dict becomes an explicit `Cache` value
  threaded through each operation; `time.time()` becomes an explicit `now`.
* A Python function that can raise to its caller returns `Except Unit _`
  (`.error ()` = an uncaught exception propagates); exceptions that the
  source catches are resolved inside the definitions, as in the source.
* Operations also report how many times they invoked `_fetch_base_rates`,
  so that the fetch-count and cache-frame claims are statable.
-/

deriving instance DecidableEq for Except

namespace CurrencyApp

/-- Python `str.strip()`: drop leading and trailing whitespace.  Implemented
on the character list so that it reduces in the kernel. -/
def pyStrip (s : String) : String :=
  ⟨((s.data.dropWhile Char.isWhitespace).reverse.dropWhile Char.isWhitespace).reverse⟩

/-- Python `str.lower()` (currency codes are ASCII). -/
def pyLower (s : String) : String :=
  ⟨s.data.map Char.toLower⟩

/-- Python `str.upper()` (currency codes are ASCII). -/
def pyUpper (s : String) : String :=
  ⟨s.data.map Char.toUpper⟩

/-- A rate table: currency code → rate, as Python dict (keys unique in source). -/
abbrev RateMap := List (String × ℚ)

/-- The two endpoint roots `PRIMARY_BASE` and `FALLBACK_BASE` (app.py lines 9-10). -/
inductive Endpoint where
  | primary
  | fallback
deriving DecidableEq, Repr

/-- A parsed JSON response body: optional `"date"` field, and the named
rate-table fields (e.g. `"usd": {"pkr": 278.1, ...}`). -/
structure Resp where
  date? : Option String
  tables : List (String × RateMap)
deriving DecidableEq, Repr

/-- The external world: what each endpoint returns for `{root}/{code}.json`;
`none` models a network/parse failure (an exception in `_try_fetch`). -/
abbrev Net := Endpoint → String → Option Resp

/-- `CACHE_TTL_SECS = 5 * 60` (app.py line 11). -/
def CACHE_TTL_SECS : ℚ := 5 * 60

/-- The module-level `_cache = {"ts": 0, "date": None, "rates": {}}`
(app.py line 13), made an explicit value. -/
structure Cache where
  ts : ℚ
  date : Option String
  rates : RateMap
deriving DecidableEq, Repr

/-- The initial cache value (app.py line 13). -/
def cache0 : Cache := { ts := 0, date := none, rates := [] }

/-- The loop body of `_fetch_base_rates` (app.py lines 22-29): try each root in
order; a raised exception (`none` response) or a response missing the
`"date"` field or the `base` field moves on to the next root. -/
def fetchLoop (net : Net) (base : String) : List Endpoint → Option (String × RateMap)
  | [] => none
  | ep :: rest =>
    match net ep base with
    | none => fetchLoop net base rest
    | some data =>
      match data.date?, data.tables.lookup base with
      | some d, some tab => some (d, tab)
      | _, _ => fetchLoop net base rest

/-- `_fetch_base_rates(base_code)` (app.py lines 20-30): lower-case the code,
try `PRIMARY_BASE` then `FALLBACK_BASE`; `none` models the final
`raise RuntimeError(...)` (`SourceUnavailable`) when both attempts fail. -/
def fetchBaseRates (net : Net) (base_code : String) : Option (String × RateMap) :=
  fetchLoop net (pyLower base_code) [Endpoint.primary, Endpoint.fallback]

/-- Result of `_get_usd_rates`: the returned `(date, rates)` (or a propagated
exception), the cache afterwards, and how many `_fetch_base_rates` calls ran. -/
structure FetchOut where
  result : Except Unit (Option String × RateMap)
  cache : Cache
  fetches : Nat
deriving DecidableEq, Repr

/-- `_get_usd_rates(force_refresh)` (app.py lines 32-38): return the cached
slot if not forced, the cached `rates` dict is truthy (nonempty) and its age
is below the TTL; otherwise fetch base `"usd"` and overwrite the whole slot
with the result and the current timestamp.  A fetch failure propagates
(`.error ()`), leaving the cache untouched. -/
def getUsdRates (net : Net) (now : ℚ) (force_refresh : Bool) (c : Cache) : FetchOut :=
  if force_refresh = false ∧ c.rates ≠ [] ∧ now - c.ts < CACHE_TTL_SECS then
    { result := .ok (c.date, c.rates), cache := c, fetches := 0 }
  else
    match fetchBaseRates net "usd" with
    | some (d, rs) =>
      { result := .ok (some d, rs)
        cache := { ts := now, date := some d, rates := rs }
        fetches := 1 }
    | none => { result := .error (), cache := c, fetches := 1 }

/-- The fixed popular-codes prefix (app.py line 43). -/
def popular : List String :=
  ["USD", "EUR", "GBP", "PKR", "INR", "AED", "SAR", "USDT", "CNY", "JPY"]

/-- `set(k.upper() for k in usd.keys()) | {"USD"}` (app.py line 42), as a
duplicate-free list (only membership matters downstream). -/
def codeSet (usd : RateMap) : List String :=
  ((usd.map fun p => pyUpper p.1) ++ ["USD"]).dedup

/-- Result of `available_codes`: the ordered code list (or a propagated
exception), the cache afterwards, and the fetch count. -/
structure CodesOut where
  result : Except Unit (List String)
  cache : Cache
  fetches : Nat
deriving DecidableEq, Repr

/-- `available_codes()` (app.py lines 40-46): force-refresh, union the fetched
codes (upper-cased) with `"USD"`, then the popular prefix restricted to the
present codes followed by the rest sorted (Python `sorted`, lexicographic). -/
def available_codes (net : Net) (now : ℚ) (c : Cache) : CodesOut :=
  match getUsdRates net now true c with
  | { result := .ok (_, usd), cache := c1, fetches := n } =>
    let codes := codeSet usd
    let rest := List.insertionSort (fun x y => x ≤ y) (codes.filter fun x => ¬ x ∈ popular)
    { result := .ok ((popular.filter fun x => x ∈ codes) ++ rest), cache := c1, fetches := n }
  | { result := .error e, cache := c1, fetches := n } =>
    { result := .error e, cache := c1, fetches := n }

/-- `r = 1.0 if code == "usd" else usd.get(code)` (app.py lines 62-63). -/
def resolveUsd (usd : RateMap) (code : String) : Option ℚ :=
  if code = "usd" then some 1 else usd.lookup code

/-- `convert`'s return value: the pair of output strings is modelled
structurally — a success carries the full-precision converted amount, the
rate, the date shown in the info text, and whether the direct-fetch path
produced it; a failure carries the info message the source returns. -/
inductive ConvResult where
  | ok (res : ℚ) (rate : ℚ) (date : Option String) (direct : Bool)
  | err (msg : String)
deriving DecidableEq, Repr

/-- Full outcome of a `convert` call: its result (or a propagated exception),
the cache afterwards, the number of `_fetch_base_rates` calls made through
`_get_usd_rates`, and the number of direct `_fetch_base_rates` calls. -/
structure ConvOut where
  result : Except Unit ConvResult
  cache : Cache
  usdFetches : Nat
  directFetches : Nat
deriving DecidableEq, Repr

/-- `convert(amount, from_code, to_code)` (app.py lines 48-79).
`amount` is the result of Python `float(amount)`: `none` when that raises.
`from_code`/`to_code` are `none` when the Python value is `None` (the
source coalesces with `or ""`).  Steps, as in the source: amount parse and
sign checks, code normalization and emptiness check, cached USD table (the
`_get_usd_rates()` call is NOT inside a try block: its failure propagates),
per-code resolution, then cross-rate or the direct-fetch fallback whose
own exceptions are caught. -/
def convert (net : Net) (now : ℚ) (amount : Option ℚ)
    (from_code to_code : Option String) (c : Cache) : ConvOut :=
  match amount with
  | none => { result := .ok (.err "Invalid amount (must be a number).")
              cache := c, usdFetches := 0, directFetches := 0 }
  | some amt =>
    if amt < 0 then
      { result := .ok (.err "Amount must be non-negative.")
        cache := c, usdFetches := 0, directFetches := 0 }
    else
      if pyLower (pyStrip (from_code.getD "")) = "" ∨ pyLower (pyStrip (to_code.getD "")) = "" then
        { result := .ok (.err "Please choose both currencies.")
          cache := c, usdFetches := 0, directFetches := 0 }
      else
        match getUsdRates net now false c with
        | { result := .error _, cache := c1, fetches := n } =>
          { result := .error (), cache := c1, usdFetches := n, directFetches := 0 }
        | { result := .ok (date, usd), cache := c1, fetches := n } =>
          match resolveUsd usd (pyLower (pyStrip (from_code.getD ""))),
              resolveUsd usd (pyLower (pyStrip (to_code.getD ""))) with
          | some r_from, some r_to =>
            { result := .ok (.ok (amt * (r_to / r_from)) (r_to / r_from) date false)
              cache := c1, usdFetches := n, directFetches := 0 }
          | _, _ =>
            match fetchBaseRates net (pyLower (pyStrip (from_code.getD ""))) with
            | some (d_date, d_map) =>
              match d_map.lookup (pyLower (pyStrip (to_code.getD ""))) with
              | some direct =>
                { result := .ok (.ok (amt * direct) direct (some d_date) true)
                  cache := c1, usdFetches := n, directFetches := 1 }
              | none =>
                { result := .ok (.err ("Pair not available: " ++
                      pyUpper (from_code.getD "") ++ " → " ++ pyUpper (to_code.getD "")))
                  cache := c1, usdFetches := n, directFetches := 1 }
            | none =>
              { result := .ok (.err ("Pair not available: " ++
                    pyUpper (from_code.getD "") ++ " → " ++ pyUpper (to_code.getD "")))
                cache := c1, usdFetches := n, directFetches := 1 }

/-- The message `convert` returns when neither the cached table nor the direct
fetch produced a pair rate (app.py line 75). -/
def pairMsg (from_code to_code : Option String) : String :=
  "Pair not available: " ++ pyUpper (from_code.getD "") ++ " → " ++ pyUpper (to_code.getD "")

/-! Concrete worlds used to instantiate the theorems below. -/

/-- A network on which every request fails (both endpoints down). -/
def netNone : Net := fun _ _ => none

/-- A network whose endpoints serve the spec's example USD table
`{"pkr": 278.1, "eur": 0.9}` with date "2024-01-01". -/
def exNet : Net := fun _ code =>
  if code = "usd" then
    some { date? := some "2024-01-01", tables := [("usd", [("pkr", 2781 / 10), ("eur", 9 / 10)])] }
  else none

/-- The cache after the spec's example table was stored at time 1000. -/
def exCache : Cache :=
  { ts := 1000, date := some "2024-01-01", rates := [("pkr", 2781 / 10), ("eur", 9 / 10)] }

/-- A network that serves an *empty* USD rate table (a well-formed response
whose `"usd"` field is `{}`). -/
def netEmptyUsd : Net := fun _ code =>
  if code = "usd" then some { date? := some "2024-03-03", tables := [("usd", [])] } else none

/-- A network serving the example USD table plus a direct `"aaa"` base table
containing `"pkr"`, for exercising the direct-fetch fallback. -/
def netDirect : Net := fun _ code =>
  if code = "usd" then
    some { date? := some "2024-01-01", tables := [("usd", [("pkr", 2781 / 10), ("eur", 9 / 10)])] }
  else if code = "aaa" then
    some { date? := some "2024-02-02", tables := [("aaa", [("pkr", 40)])] }
  else none

/-- Modelled from the spec (for the refinement claim about `_fetch_base_rates`):
a single endpoint attempt — `none` on network/parse failure or when the
response lacks the `"date"` field or the field named exactly the lower-cased
base code; otherwise the `(date, rates)` pair. -/
def attemptSpec (net : Net) (ep : Endpoint) (base_code : String) : Option (String × RateMap) :=
  match net ep (pyLower base_code) with
  | none => none
  | some data =>
    match data.date?, data.tables.lookup (pyLower base_code) with
    | some d, some tab => some (d, tab)
    | _, _ => none

/-! Helper lemmas shared by the claim theorems. -/

/-- Cache-hit behavior of `_get_usd_rates`: a present, nonempty, fresh slot is
returned as is, with no fetch. -/
theorem getUsdRates_hit (net : Net) (now : ℚ) (c : Cache)
    (h1 : c.rates ≠ []) (h2 : now - c.ts < CACHE_TTL_SECS) :
    getUsdRates net now false c =
      { result := .ok (c.date, c.rates), cache := c, fetches := 0 } := by
  unfold getUsdRates
  rw [if_pos ⟨rfl, h1, h2⟩]

/-- Cache-miss behavior of `_get_usd_rates`: forced, empty or stale slots
cause a fetch of base `"usd"`. -/
theorem getUsdRates_miss (net : Net) (now : ℚ) (force : Bool) (c : Cache)
    (h : ¬ (force = false ∧ c.rates ≠ [] ∧ now - c.ts < CACHE_TTL_SECS)) :
    getUsdRates net now force c =
      match fetchBaseRates net "usd" with
      | some (d, rs) =>
        { result := .ok (some d, rs), cache := { ts := now, date := some d, rates := rs },
          fetches := 1 }
      | none => { result := .error (), cache := c, fetches := 1 } := by
  unfold getUsdRates
  rw [if_neg h]

/-- The cross-rate path of `convert`: valid inputs, a usable cached table, and
both codes resolving against it. -/
theorem convert_cross (net : Net) (now q : ℚ) (A B : String) (c : Cache)
    (date : Option String) (usd : RateMap) (c1 : Cache) (n : ℕ) (rf rt : ℚ)
    (hq : ¬ q < 0)
    (hA : pyLower (pyStrip A) ≠ "") (hB : pyLower (pyStrip B) ≠ "")
    (hg : getUsdRates net now false c =
      { result := .ok (date, usd), cache := c1, fetches := n })
    (hrf : resolveUsd usd (pyLower (pyStrip A)) = some rf)
    (hrt : resolveUsd usd (pyLower (pyStrip B)) = some rt) :
    convert net now (some q) (some A) (some B) c =
      { result := .ok (.ok (q * (rt / rf)) (rt / rf) date false), cache := c1,
        usdFetches := n, directFetches := 0 } := by
  simp only [convert, Option.getD_some]
  rw [if_neg hq, if_neg (not_or.mpr ⟨hA, hB⟩), hg]
  simp only [hrf, hrt]

/-- The direct-fetch fallback path of `convert`, by cases on the direct fetch. -/
theorem convert_fallback_cases (net : Net) (now q : ℚ) (A B : String) (c : Cache)
    (date : Option String) (usd : RateMap) (c1 : Cache) (n : ℕ)
    (hq : ¬ q < 0)
    (hA : pyLower (pyStrip A) ≠ "") (hB : pyLower (pyStrip B) ≠ "")
    (hg : getUsdRates net now false c =
      { result := .ok (date, usd), cache := c1, fetches := n })
    (hmiss : resolveUsd usd (pyLower (pyStrip A)) = none ∨
             resolveUsd usd (pyLower (pyStrip B)) = none) :
    convert net now (some q) (some A) (some B) c =
      match fetchBaseRates net (pyLower (pyStrip A)) with
      | some (d_date, d_map) =>
        match d_map.lookup (pyLower (pyStrip B)) with
        | some direct =>
          { result := .ok (.ok (q * direct) direct (some d_date) true), cache := c1,
            usdFetches := n, directFetches := 1 }
        | none =>
          { result := .ok (.err (pairMsg (some A) (some B))), cache := c1,
            usdFetches := n, directFetches := 1 }
      | none =>
        { result := .ok (.err (pairMsg (some A) (some B))), cache := c1,
          usdFetches := n, directFetches := 1 } := by
  simp only [convert, Option.getD_some, pairMsg]
  rw [if_neg hq, if_neg (not_or.mpr ⟨hA, hB⟩), hg]
  rcases hmiss with h | h
  · simp only [h]
  · rcases ha : resolveUsd usd (pyLower (pyStrip A)) with _ | ra <;> simp only [h, ha]


/-- C1: with a usable cached USD table, `convert` on two resolvable codes
succeeds with rate = rateTo / rateFrom, convertedAmount = amount × rate, and
the cached table's date. -/
theorem convert_cross_rate_correct (net : Net) (now q : ℚ) (A B : String) (c : Cache)
    (date : Option String) (usd : RateMap) (c1 : Cache) (n : ℕ) (rateFrom rateTo : ℚ)
    (hq : 0 ≤ q)
    (hA : pyLower (pyStrip A) ≠ "") (hB : pyLower (pyStrip B) ≠ "")
    (hg : getUsdRates net now false c =
      { result := .ok (date, usd), cache := c1, fetches := n })
    (hrf : resolveUsd usd (pyLower (pyStrip A)) = some rateFrom)
    (hrt : resolveUsd usd (pyLower (pyStrip B)) = some rateTo) :
    convert net now (some q) (some A) (some B) c =
      { result := .ok (.ok (q * (rateTo / rateFrom)) (rateTo / rateFrom) date false),
        cache := c1, usdFetches := n, directFetches := 0 } :=
  convert_cross net now q A B c date usd c1 n rateFrom rateTo (not_lt.mpr hq) hA hB hg hrf hrt

/-- Witness for C1, the spec's example: table `{"pkr": 278.1, "eur": 0.9}`,
date "2024-01-01": convert(10, "EUR", "PKR") → rate 309, result 3090. -/
theorem convert_cross_rate_correct_witness :
    (0 : ℚ) ≤ 10 ∧
    convert exNet 1100 (some 10) (some "EUR") (some "PKR") exCache =
      { result := .ok (.ok (10 * ((2781 / 10) / (9 / 10))) ((2781 / 10) / (9 / 10))
          (some "2024-01-01") false),
        cache := exCache, usdFetches := 0, directFetches := 0 } ∧
    (2781 / 10 : ℚ) / (9 / 10) = 309 ∧ (10 : ℚ) * ((2781 / 10) / (9 / 10)) = 3090 := by
  refine ⟨by norm_num, ?_, by norm_num, by norm_num⟩
  exact convert_cross_rate_correct exNet 1100 10 "EUR" "PKR" exCache (some "2024-01-01")
    [("pkr", 2781 / 10), ("eur", 9 / 10)] exCache 0 (9 / 10) (2781 / 10)
    (by norm_num) (by decide) (by decide)
    (getUsdRates_hit exNet 1100 exCache (by simp [exCache]) (by norm_num [exCache, CACHE_TTL_SECS]))
    rfl rfl

/-- C6: the validation checks of `convert` run in order (InvalidAmount, then
NegativeAmount, then MissingCurrency) and each failure short-circuits before
any fetch, leaving the cache unchanged. -/
theorem convert_validation_order (net : Net) (now q : ℚ) (f t : Option String) (c : Cache) :
    convert net now none f t c =
      { result := .ok (.err "Invalid amount (must be a number)."), cache := c,
        usdFetches := 0, directFetches := 0 } ∧
    (q < 0 → convert net now (some q) f t c =
      { result := .ok (.err "Amount must be non-negative."), cache := c,
        usdFetches := 0, directFetches := 0 }) ∧
    (¬ q < 0 →
      (pyLower (pyStrip (f.getD "")) = "" ∨ pyLower (pyStrip (t.getD "")) = "") →
      convert net now (some q) f t c =
      { result := .ok (.err "Please choose both currencies."), cache := c,
        usdFetches := 0, directFetches := 0 }) := by
  refine ⟨rfl, fun hq => ?_, fun hq he => ?_⟩
  · simp only [convert]
    rw [if_pos hq]
  · simp only [convert]
    rw [if_neg hq, if_pos he]

/-- Witness for C6: convert(-1, "USD", "PKR") → NegativeAmount,
convert("abc", "USD", "PKR") → InvalidAmount (the unparseable amount),
convert(1, "", "PKR") → MissingCurrency; no fetch happens in any of them. -/
theorem convert_validation_order_witness :
    convert netNone 0 (some (-1)) (some "USD") (some "PKR") cache0 =
      { result := .ok (.err "Amount must be non-negative."), cache := cache0,
        usdFetches := 0, directFetches := 0 } ∧
    convert netNone 0 none (some "USD") (some "PKR") cache0 =
      { result := .ok (.err "Invalid amount (must be a number)."), cache := cache0,
        usdFetches := 0, directFetches := 0 } ∧
    convert netNone 0 (some 1) (some "") (some "PKR") cache0 =
      { result := .ok (.err "Please choose both currencies."), cache := cache0,
        usdFetches := 0, directFetches := 0 } :=
  ⟨(convert_validation_order netNone 0 (-1) (some "USD") (some "PKR") cache0).2.1 (by norm_num),
   (convert_validation_order netNone 0 0 (some "USD") (some "PKR") cache0).1,
   (convert_validation_order netNone 0 1 (some "") (some "PKR") cache0).2.2 (by norm_num)
     (Or.inl (by decide))⟩

/-- C10: a missing (`None`) currency code is coalesced to the empty string, so
a valid amount with an absent code yields the MissingCurrency message, not an
exception. -/
theorem convert_none_code_missing (net : Net) (now q : ℚ) (f t : Option String) (c : Cache)
    (hq : ¬ q < 0) :
    convert net now (some q) none t c =
      { result := .ok (.err "Please choose both currencies."), cache := c,
        usdFetches := 0, directFetches := 0 } ∧
    convert net now (some q) f none c =
      { result := .ok (.err "Please choose both currencies."), cache := c,
        usdFetches := 0, directFetches := 0 } := by
  refine ⟨?_, ?_⟩ <;> simp only [convert] <;> rw [if_neg hq]
  · rw [if_pos (Or.inl (by decide))]
  · rw [if_pos (Or.inr (by decide))]

/-- Witness for C10: `convert(1, None, "PKR")` and `convert(1, "USD", None)`
both return the MissingCurrency message. -/
theorem convert_none_code_missing_witness :
    convert netNone 5 (some 1) none (some "PKR") cache0 =
      { result := .ok (.err "Please choose both currencies."), cache := cache0,
        usdFetches := 0, directFetches := 0 } ∧
    convert netNone 5 (some 1) (some "USD") none cache0 =
      { result := .ok (.err "Please choose both currencies."), cache := cache0,
        usdFetches := 0, directFetches := 0 } :=
  ⟨(convert_none_code_missing netNone 5 1 (some "USD") (some "PKR") cache0 (by norm_num)).1,
   (convert_none_code_missing netNone 5 1 (some "USD") (some "PKR") cache0 (by norm_num)).2⟩




theorem attemptSpec_eq_fetchLoop (net : Net) (ep : Endpoint) (code : String) :
    attemptSpec net ep code = fetchLoop net (pyLower code) [ep] := by
  rcases h1 : net ep (pyLower code) with _ | data
  · simp [attemptSpec, fetchLoop, h1]
  · rcases hd : data.date? with _ | d <;>
      rcases hl : data.tables.lookup (pyLower code) with _ | tab <;>
      simp [attemptSpec, fetchLoop, h1, hd, hl]

theorem fetchLoop_cons_orElse (net : Net) (base : String) (ep : Endpoint)
    (rest : List Endpoint) :
    fetchLoop net base (ep :: rest) =
      (fetchLoop net base [ep]).orElse (fun _ => fetchLoop net base rest) := by
  rcases h1 : net ep base with _ | data
  · simp [fetchLoop, h1, Option.orElse]
  · rcases hd : data.date? with _ | d <;> rcases hl : data.tables.lookup base with _ | tab <;>
      simp [fetchLoop, h1, hd, hl, Option.orElse]

/-- C5: `_fetch_base_rates` attempts the primary endpoint at the lower-cased
code path first and the fallback second; a response lacking `"date"` or the
base-code field counts as a failed attempt; the first valid attempt's
`(date, rates)` is returned, and it fails (SourceUnavailable) iff both
attempts fail. -/
theorem fetchBaseRates_two_tier (net : Net) (code : String) :
    fetchBaseRates net code =
      (attemptSpec net .primary code).orElse (fun _ => attemptSpec net .fallback code) ∧
    (fetchBaseRates net code = none ↔
      attemptSpec net .primary code = none ∧ attemptSpec net .fallback code = none) := by
  have h : fetchBaseRates net code =
      (attemptSpec net .primary code).orElse (fun _ => attemptSpec net .fallback code) := by
    unfold fetchBaseRates
    rw [fetchLoop_cons_orElse, ← attemptSpec_eq_fetchLoop, ← attemptSpec_eq_fetchLoop]
  refine ⟨h, ?_⟩
  rw [h]
  rcases attemptSpec net .primary code with _ | p <;>
    rcases attemptSpec net .fallback code with _ | q <;> simp [Option.orElse]



/-- C3 counterexample: a successful fetch may store an *empty* rate table, and
then a second `getUsdRates(false)` call 10 seconds later still invokes the
rate source (`fetches = 1`), so "exactly one fetch occurs" fails as stated. -/
theorem getUsdRates_ttl_counterexample :
    (getUsdRates netEmptyUsd 0 false cache0).result = .ok (some "2024-03-03", []) ∧
    (getUsdRates netEmptyUsd 0 false cache0).fetches = 1 ∧
    (10 : ℚ) - (getUsdRates netEmptyUsd 0 false cache0).cache.ts < CACHE_TTL_SECS ∧
    (getUsdRates netEmptyUsd 10 false ((getUsdRates netEmptyUsd 0 false cache0).cache)).fetches
      = 1 := by
  have h0 : getUsdRates netEmptyUsd 0 false cache0 =
      { result := .ok (some "2024-03-03", []),
        cache := { ts := 0, date := some "2024-03-03", rates := [] }, fetches := 1 } := by
    rw [getUsdRates_miss netEmptyUsd 0 false cache0 (by simp [cache0])]
    rfl
  have h1 : getUsdRates netEmptyUsd 10 false
      { ts := 0, date := some "2024-03-03", rates := [] } =
      { result := .ok (some "2024-03-03", []),
        cache := { ts := 10, date := some "2024-03-03", rates := [] }, fetches := 1 } := by
    rw [getUsdRates_miss netEmptyUsd 10 false _ (by simp)]
    rfl
  refine ⟨by rw [h0], by rw [h0], by rw [h0]; norm_num [CACHE_TTL_SECS], by rw [h0, h1]⟩

/-- C3 (amended): with a *nonempty* successful fetch, a `getUsdRates(false)`
call within the TTL returns the cached slot with no fetch; a forced, empty or
stale call performs one fetch and overwrites the whole slot with the fetched
result and the current timestamp. -/
theorem getUsdRates_ttl (net : Net) (t0 t1 : ℚ) (force : Bool) (c : Cache) :
    ((c.rates ≠ [] ∧ t1 - c.ts < CACHE_TTL_SECS) →
      getUsdRates net t1 false c =
        { result := .ok (c.date, c.rates), cache := c, fetches := 0 }) ∧
    ((force = true ∨ c.rates = [] ∨ ¬ t0 - c.ts < CACHE_TTL_SECS) →
      (getUsdRates net t0 force c).fetches = 1 ∧
      ∀ d rs, fetchBaseRates net "usd" = some (d, rs) →
        getUsdRates net t0 force c =
          { result := .ok (some d, rs),
            cache := { ts := t0, date := some d, rates := rs }, fetches := 1 }) ∧
    (∀ d rs, fetchBaseRates net "usd" = some (d, rs) → rs ≠ [] →
      (force = true ∨ c.rates = [] ∨ ¬ t0 - c.ts < CACHE_TTL_SECS) →
      t1 - t0 < CACHE_TTL_SECS →
      getUsdRates net t1 false ((getUsdRates net t0 force c).cache) =
        { result := .ok (some d, rs), cache := (getUsdRates net t0 force c).cache,
          fetches := 0 }) := by
  have hmiss : (force = true ∨ c.rates = [] ∨ ¬ t0 - c.ts < CACHE_TTL_SECS) →
      ¬ (force = false ∧ c.rates ≠ [] ∧ t0 - c.ts < CACHE_TTL_SECS) := by
    rintro (h | h | h) <;> simp [h]
  refine ⟨fun h => getUsdRates_hit net t1 c h.1 h.2, fun h => ?_, fun d rs hf hne h htt => ?_⟩
  · rw [getUsdRates_miss net t0 force c (hmiss h)]
    constructor
    · rcases hf : fetchBaseRates net "usd" with _ | ⟨d, rs⟩ <;> simp [hf]
    · intro d rs hf
      rw [hf]
  · have key : getUsdRates net t0 force c =
        { result := .ok (some d, rs),
          cache := { ts := t0, date := some d, rates := rs }, fetches := 1 } := by
      rw [getUsdRates_miss net t0 force c (hmiss h), hf]
    rw [key]
    exact getUsdRates_hit net t1 { ts := t0, date := some d, rates := rs } hne (by simpa using htt)

/-- Witness for C3 (amended): a nonempty fetch at t=0 stores the slot, and a
second call at t=10 returns it with no fetch. -/
theorem getUsdRates_ttl_witness :
    fetchBaseRates exNet "usd" = some ("2024-01-01", [("pkr", 2781 / 10), ("eur", 9 / 10)]) ∧
    ([("pkr", 2781 / 10), ("eur", 9 / 10)] : RateMap) ≠ [] ∧
    (10 : ℚ) - 0 < CACHE_TTL_SECS ∧
    getUsdRates exNet 10 false ((getUsdRates exNet 0 false cache0).cache) =
      { result := .ok (some "2024-01-01", [("pkr", 2781 / 10), ("eur", 9 / 10)]),
        cache := (getUsdRates exNet 0 false cache0).cache, fetches := 0 } :=
  ⟨rfl, by simp, by norm_num [CACHE_TTL_SECS],
   (getUsdRates_ttl exNet 0 10 false cache0).2.2 "2024-01-01"
     [("pkr", 2781 / 10), ("eur", 9 / 10)] rfl (by simp) (Or.inr (Or.inl rfl))
     (by norm_num [CACHE_TTL_SECS])⟩



/-- C4: when a normalized code fails to resolve against the cached USD table,
`convert` makes exactly one direct `_fetch_base_rates(fromCode)` attempt: a
successful fetch whose map contains the to-code yields success with
amount × directRate, that rate and the direct fetch's date; otherwise the
PairUnavailable message naming both codes. -/
theorem convert_direct_fallback (net : Net) (now q : ℚ) (A B : String) (c : Cache)
    (date : Option String) (usd : RateMap) (c1 : Cache) (n : ℕ)
    (hq : 0 ≤ q)
    (hA : pyLower (pyStrip A) ≠ "") (hB : pyLower (pyStrip B) ≠ "")
    (hg : getUsdRates net now false c =
      { result := .ok (date, usd), cache := c1, fetches := n })
    (hmiss : resolveUsd usd (pyLower (pyStrip A)) = none ∨
             resolveUsd usd (pyLower (pyStrip B)) = none) :
    (convert net now (some q) (some A) (some B) c).directFetches = 1 ∧
    (∀ d m dr, fetchBaseRates net (pyLower (pyStrip A)) = some (d, m) →
      m.lookup (pyLower (pyStrip B)) = some dr →
      convert net now (some q) (some A) (some B) c =
        { result := .ok (.ok (q * dr) dr (some d) true), cache := c1,
          usdFetches := n, directFetches := 1 }) ∧
    (∀ d m, fetchBaseRates net (pyLower (pyStrip A)) = some (d, m) →
      m.lookup (pyLower (pyStrip B)) = none →
      convert net now (some q) (some A) (some B) c =
        { result := .ok (.err (pairMsg (some A) (some B))), cache := c1,
          usdFetches := n, directFetches := 1 }) ∧
    (fetchBaseRates net (pyLower (pyStrip A)) = none →
      convert net now (some q) (some A) (some B) c =
        { result := .ok (.err (pairMsg (some A) (some B))), cache := c1,
          usdFetches := n, directFetches := 1 }) := by
  have key := convert_fallback_cases net now q A B c date usd c1 n (not_lt.mpr hq) hA hB hg hmiss
  refine ⟨?_, fun d m dr hf hl => ?_, fun d m hf hl => ?_, fun hf => ?_⟩
  · rw [key]
    rcases hf : fetchBaseRates net (pyLower (pyStrip A)) with _ | ⟨d, m⟩
    · rfl
    · rcases hl : m.lookup (pyLower (pyStrip B)) with _ | dr <;> simp [hl]
  · rw [key]
    simp only [hf, hl]
  · rw [key]
    simp only [hf, hl]
  · rw [key]
    simp only [hf]

/-- Witness for C4: with the example table cached, "AAA" does not resolve, and
the direct fetch (base "aaa") either supplies the pair ("AAA"→"PKR" at rate
40) or fails it ("AAA"→"ZZZ" gives the PairUnavailable message). -/
theorem convert_direct_fallback_witness :
    resolveUsd exCache.rates (pyLower (pyStrip "AAA")) = none ∧
    convert netDirect 1100 (some 3) (some "AAA") (some "PKR") exCache =
      { result := .ok (.ok (3 * 40) 40 (some "2024-02-02") true), cache := exCache,
        usdFetches := 0, directFetches := 1 } ∧
    convert netDirect 1100 (some 3) (some "AAA") (some "ZZZ") exCache =
      { result := .ok (.err (pairMsg (some "AAA") (some "ZZZ"))), cache := exCache,
        usdFetches := 0, directFetches := 1 } :=
  ⟨rfl,
   (convert_direct_fallback netDirect 1100 3 "AAA" "PKR" exCache (some "2024-01-01")
      [("pkr", 2781 / 10), ("eur", 9 / 10)] exCache 0 (by norm_num) (by decide) (by decide)
      (getUsdRates_hit netDirect 1100 exCache (by simp [exCache])
        (by norm_num [exCache, CACHE_TTL_SECS]))
      (Or.inl rfl)).2.1 "2024-02-02" [("pkr", 40)] 40 rfl rfl,
   (convert_direct_fallback netDirect 1100 3 "AAA" "ZZZ" exCache (some "2024-01-01")
      [("pkr", 2781 / 10), ("eur", 9 / 10)] exCache 0 (by norm_num) (by decide) (by decide)
      (getUsdRates_hit netDirect 1100 exCache (by simp [exCache])
        (by norm_num [exCache, CACHE_TTL_SECS]))
      (Or.inl rfl)).2.2.1 "2024-02-02" [("pkr", 40)] rfl rfl⟩

/-- C9: the direct-fetch fallback never writes the shared cache: on the
fallback path the cache after `convert` is exactly the cache `_get_usd_rates`
left (so if the slot was fresh, the whole call leaves it untouched), and the
direct fetch is performed anew on every such call. -/
theorem convert_fallback_frame (net : Net) (now q : ℚ) (A B : String) (c : Cache)
    (date : Option String) (usd : RateMap) (c1 : Cache) (n : ℕ)
    (hq : 0 ≤ q)
    (hA : pyLower (pyStrip A) ≠ "") (hB : pyLower (pyStrip B) ≠ "")
    (hg : getUsdRates net now false c =
      { result := .ok (date, usd), cache := c1, fetches := n })
    (hmiss : resolveUsd usd (pyLower (pyStrip A)) = none ∨
             resolveUsd usd (pyLower (pyStrip B)) = none) :
    (convert net now (some q) (some A) (some B) c).cache = c1 ∧
    ((c.rates ≠ [] ∧ now - c.ts < CACHE_TTL_SECS) →
      (convert net now (some q) (some A) (some B) c).cache = c) ∧
    (convert net now (some q) (some A) (some B) c).directFetches = 1 := by
  have key := convert_fallback_cases net now q A B c date usd c1 n (not_lt.mpr hq) hA hB hg hmiss
  have hcache : (convert net now (some q) (some A) (some B) c).cache = c1 := by
    rw [key]
    rcases hf : fetchBaseRates net (pyLower (pyStrip A)) with _ | ⟨d, m⟩
    · rfl
    · rcases hl : m.lookup (pyLower (pyStrip B)) with _ | dr <;> simp [hl]
  have hdirect : (convert net now (some q) (some A) (some B) c).directFetches = 1 := by
    rw [key]
    rcases hf : fetchBaseRates net (pyLower (pyStrip A)) with _ | ⟨d, m⟩
    · rfl
    · rcases hl : m.lookup (pyLower (pyStrip B)) with _ | dr <;> simp [hl]
  refine ⟨hcache, fun hfresh => ?_, hdirect⟩
  have hhit := getUsdRates_hit net now c hfresh.1 hfresh.2
  rw [hhit] at hg
  have hc1 : c = c1 := congrArg FetchOut.cache hg
  rw [hcache, ← hc1]

/-- Witness for C9: a fresh cache and an unresolvable from-code: the call
leaves the cache exactly as it was and performs the direct fetch. -/
theorem convert_fallback_frame_witness :
    (convert exNet 1100 (some 1) (some "AAA") (some "PKR") exCache).cache = exCache ∧
    (convert exNet 1100 (some 1) (some "AAA") (some "PKR") exCache).directFetches = 1 := by
  have h := convert_fallback_frame exNet 1100 1 "AAA" "PKR" exCache (some "2024-01-01")
    [("pkr", 2781 / 10), ("eur", 9 / 10)] exCache 0 (by norm_num) (by decide) (by decide)
    (getUsdRates_hit exNet 1100 exCache (by simp [exCache])
      (by norm_num [exCache, CACHE_TTL_SECS]))
    (Or.inl rfl)
  exact ⟨h.1, h.2.2⟩



/-- C2 counterexample: with both endpoints down and an empty cache, a fully
valid `convert` call propagates the step-3 `SourceUnavailable` exception to
its caller instead of returning a message. -/
theorem convert_exception_counterexample :
    (convert netNone 1000 (some 1) (some "eur") (some "pkr") cache0).result = .error () := by
  decide

/-- C2 (amended): `convert` raises iff the amount parses and is nonnegative,
both codes are nonempty after normalization, and the step-3 cached-table
fetch fails; every other error is returned as a message. -/
theorem convert_exception_iff (net : Net) (now : ℚ) (amount : Option ℚ)
    (f t : Option String) (c : Cache) :
    (convert net now amount f t c).result = .error () ↔
      ((∃ q, amount = some q ∧ ¬ q < 0) ∧
       pyLower (pyStrip (f.getD "")) ≠ "" ∧ pyLower (pyStrip (t.getD "")) ≠ "" ∧
       (getUsdRates net now false c).result = .error ()) := by
  rcases amount with _ | q
  · simp [convert]
  · by_cases hq : q < 0
    · simp only [convert]
      rw [if_pos hq]
      simp [hq]
    · by_cases he1 : pyLower (pyStrip (f.getD "")) = ""
      · simp only [convert]
        rw [if_neg hq, if_pos (Or.inl he1)]
        simp [he1]
      · by_cases he2 : pyLower (pyStrip (t.getD "")) = ""
        · simp only [convert]
          rw [if_neg hq, if_pos (Or.inr he2)]
          simp [he2]
        · simp only [convert]
          rw [if_neg hq, if_neg (not_or.mpr ⟨he1, he2⟩)]
          rcases hg : getUsdRates net now false c with ⟨res, c1, n⟩
          rcases res with e | p
          · cases e
            simp [not_lt.mp hq, he1, he2]
          · rcases p with ⟨d, usd⟩
            rcases ha : resolveUsd usd (pyLower (pyStrip (f.getD ""))) with _ | ra <;>
              rcases hb : resolveUsd usd (pyLower (pyStrip (t.getD ""))) with _ | rb
            · rcases hfb : fetchBaseRates net (pyLower (pyStrip (f.getD ""))) with _ | ⟨dd, dm⟩
              · simp [ha, hb, hfb]
              · rcases hl : dm.lookup (pyLower (pyStrip (t.getD ""))) with _ | dr <;>
                  simp [ha, hb, hfb, hl]
            · rcases hfb : fetchBaseRates net (pyLower (pyStrip (f.getD ""))) with _ | ⟨dd, dm⟩
              · simp [ha, hb, hfb]
              · rcases hl : dm.lookup (pyLower (pyStrip (t.getD ""))) with _ | dr <;>
                  simp [ha, hb, hfb, hl]
            · rcases hfb : fetchBaseRates net (pyLower (pyStrip (f.getD ""))) with _ | ⟨dd, dm⟩
              · simp [ha, hb, hfb]
              · rcases hl : dm.lookup (pyLower (pyStrip (t.getD ""))) with _ | dr <;>
                  simp [ha, hb, hfb, hl]
            · simp [ha, hb]



/-- C7: `available_codes` always force-refreshes (exactly one fetch), and on
a successful fetch returns the union of the fetched codes (upper-cased) and
"USD", ordered as the fixed popular prefix restricted to present codes
followed by the remaining codes in lexicographic order. -/
theorem available_codes_spec (net : Net) (now : ℚ) (c : Cache) :
    (available_codes net now c).fetches = 1 ∧
    ∀ d rs, fetchBaseRates net "usd" = some (d, rs) →
      available_codes net now c =
        { result := .ok ((popular.filter fun x => x ∈ codeSet rs) ++
              List.insertionSort (fun x y => x ≤ y)
                ((codeSet rs).filter fun x => ¬ x ∈ popular)),
          cache := { ts := now, date := some d, rates := rs }, fetches := 1 } ∧
      (List.insertionSort (fun x y => x ≤ y)
          ((codeSet rs).filter fun x => ¬ x ∈ popular)).Sorted (fun x y => x ≤ y) ∧
      (∀ x, x ∈ List.insertionSort (fun x y => x ≤ y)
          ((codeSet rs).filter fun x => ¬ x ∈ popular) ↔ x ∈ codeSet rs ∧ ¬ x ∈ popular) ∧
      (∀ x, x ∈ codeSet rs ↔ x = "USD" ∨ ∃ p ∈ rs, x = pyUpper p.1) := by
  have hm := getUsdRates_miss net now true c (by simp)
  constructor
  · rcases hf : fetchBaseRates net "usd" with _ | ⟨d, rs⟩ <;>
      simp [available_codes, hm, hf]
  · intro d rs hf
    refine ⟨by simp [available_codes, hm, hf], List.sorted_insertionSort _ _, fun x => ?_, fun x => ?_⟩
    · simp [List.mem_insertionSort, List.mem_filter]
    · simp only [codeSet, List.mem_dedup, List.mem_append, List.mem_map,
        List.mem_singleton]
      constructor
      · rintro (⟨p, hp, rfl⟩ | h)
        · exact Or.inr ⟨p, hp, rfl⟩
        · exact Or.inl h
      · rintro (h | ⟨p, hp, rfl⟩)
        · exact Or.inr h
        · exact Or.inl ⟨p, hp, rfl⟩

/-- Witness for C7: with fetched codes {"pkr", "eur", "usd"} the returned
order is exactly ["USD", "EUR", "PKR"]. -/
theorem available_codes_spec_witness :
    fetchBaseRates exNet "usd" = some ("2024-01-01", [("pkr", 2781 / 10), ("eur", 9 / 10)]) ∧
    available_codes exNet 7 cache0 =
      { result := .ok ((popular.filter fun x =>
            x ∈ codeSet [("pkr", 2781 / 10), ("eur", 9 / 10)]) ++
            List.insertionSort (fun x y => x ≤ y)
              ((codeSet [("pkr", 2781 / 10), ("eur", 9 / 10)]).filter fun x => ¬ x ∈ popular)),
        cache := { ts := 7, date := some "2024-01-01",
                   rates := [("pkr", 2781 / 10), ("eur", 9 / 10)] }, fetches := 1 } ∧
    ((popular.filter fun x => x ∈ codeSet [("pkr", 2781 / 10), ("eur", 9 / 10)]) ++
        List.insertionSort (fun x y => x ≤ y)
          ((codeSet [("pkr", 2781 / 10), ("eur", 9 / 10)]).filter fun x => ¬ x ∈ popular)) =
      ["USD", "EUR", "PKR"] :=
  ⟨rfl,
   ((available_codes_spec exNet 7 cache0).2 "2024-01-01"
      [("pkr", 2781 / 10), ("eur", 9 / 10)] rfl).1,
   by decide⟩

/-- C8: with a fixed fresh cached table and both codes resolving to positive
rates, converting A→B and then the result B→A is the identity: the two rates
multiply to 1 and the original amount is recovered. -/
theorem convert_round_trip (net : Net) (now q : ℚ) (A B : String) (c : Cache)
    (ra rb : ℚ)
    (hq : 0 ≤ q)
    (hfresh : c.rates ≠ []) (httl : now - c.ts < CACHE_TTL_SECS)
    (hA : pyLower (pyStrip A) ≠ "") (hB : pyLower (pyStrip B) ≠ "")
    (hra : resolveUsd c.rates (pyLower (pyStrip A)) = some ra) (hpa : 0 < ra)
    (hrb : resolveUsd c.rates (pyLower (pyStrip B)) = some rb) (hpb : 0 < rb) :
    convert net now (some q) (some A) (some B) c =
      { result := .ok (.ok (q * (rb / ra)) (rb / ra) c.date false), cache := c,
        usdFetches := 0, directFetches := 0 } ∧
    convert net now (some (q * (rb / ra))) (some B) (some A) c =
      { result := .ok (.ok (q * (rb / ra) * (ra / rb)) (ra / rb) c.date false), cache := c,
        usdFetches := 0, directFetches := 0 } ∧
    (rb / ra) * (ra / rb) = 1 ∧
    q * (rb / ra) * (ra / rb) = q := by
  have hg := getUsdRates_hit net now c hfresh httl
  have hprod : (rb / ra) * (ra / rb) = 1 := by
    rw [div_mul_div_comm, mul_comm rb ra]
    exact div_self (by positivity)
  exact ⟨convert_cross net now q A B c c.date c.rates c 0 ra rb (not_lt.mpr hq) hA hB hg hra hrb,
    convert_cross net now (q * (rb / ra)) B A c c.date c.rates c 0 rb ra
      (not_lt.mpr (by positivity)) hB hA hg hrb hra,
    hprod, by rw [mul_assoc, hprod, mul_one]⟩

/-- Witness for C8: 10 EUR → PKR → EUR over the example table returns 10, and
the two cross-rates multiply to exactly 1. -/
theorem convert_round_trip_witness :
    (0 : ℚ) < 9 / 10 ∧ (0 : ℚ) < 2781 / 10 ∧
    convert exNet 1100 (some (10 * ((2781 / 10) / (9 / 10)))) (some "PKR") (some "EUR") exCache =
      { result := .ok (.ok (10 * ((2781 / 10) / (9 / 10)) * ((9 / 10) / (2781 / 10)))
          ((9 / 10) / (2781 / 10)) (some "2024-01-01") false),
        cache := exCache, usdFetches := 0, directFetches := 0 } ∧
    ((2781 / 10 : ℚ) / (9 / 10)) * ((9 / 10) / (2781 / 10)) = 1 ∧
    10 * ((2781 / 10 : ℚ) / (9 / 10)) * ((9 / 10) / (2781 / 10)) = 10 := by
  have h := convert_round_trip exNet 1100 10 "EUR" "PKR" exCache (9 / 10) (2781 / 10)
    (by norm_num) (by simp [exCache]) (by norm_num [exCache, CACHE_TTL_SECS])
    (by decide) (by decide) rfl (by norm_num) rfl (by norm_num)
  exact ⟨by norm_num, by norm_num, h.2.1, h.2.2.1, h.2.2.2⟩

end CurrencyApp
